import Mathlib

/-!
Verification of the trx-js thread-handle library (src/index.ts).

The source wraps a platform Worker in a handle with `join`, `interrupt`,
`rx.recv`, `rx.onMessage` and `id`.  We embed the owner-side closure state
of one handle (the mutable variables `interrupted`, `completed`,
`completionCode`, `completionError`, `completionResolve`/`completionReject`,
`timeoutId`) as a structure, and the event-driven code paths
(`join`, `interrupt`, `completionHandler`, the join-timeout callback, and
`errorHandler`) as a step function on that state, recording promise
settlements and resource-teardown executions as observable effects.
The worker-side harness (the generated worker code), the message-port
listener dispatch used by `rx.recv`/`rx.onMessage`, and the thread-id
allocator are embedded separately below.
-/

namespace Trx

/-- Completion-signal payload: the worker posts an object carrying a numeric
exit code and, on failure, the thrown error's message string.  An absent
field is `none` (JavaScript `undefined`). -/
structure CompletionData where
  code : Option Nat
  error : Option String
  deriving DecidableEq, Repr

/-- JavaScript truthiness of the optional `data.error` string, as tested by
`if (data.error)` in `completionHandler`: `undefined` and the empty string
are falsy. -/
def errTruthy : Option String → Bool
  | none => false
  | some s => decide (s ≠ "")

/-- The expression `data.code || 0` from `completionHandler`: an absent
(or zero, hence falsy) code normalizes to 0. -/
def codeOrZero : Option Nat → Nat
  | none => 0
  | some c => c

/-- Messages posted on the data Message Channel: user payloads sent via
`tx.send`, or the diagnostic `{ error, stack }` object the worker harness
posts when the job throws. -/
inductive ChanMsg where
  | user (payload : Nat)
  | errDiag (message : String) (stack : String)
  deriving DecidableEq, Repr

/-- Outcome of running the user function inside the worker: it either
returns (or its returned promise resolves), or it throws an error carrying
a message and a stack. -/
inductive JobOutcome where
  | ok
  | throws (message : String) (stack : String)
  deriving DecidableEq, Repr

/-- Worker-side `self.onmessage` harness from the generated worker code:
runs the user function, and returns the list of messages posted on the
data port together with the single completion message posted on the
completion port.  On success it posts `{ type, code: 0 }`; on a throw it
posts `{ error, stack }` on the data port and
`{ type, code: 1, error: message }` on the completion port. -/
def workerRun : JobOutcome → List ChanMsg × CompletionData
  | JobOutcome.ok => ([], { code := some 0, error := none })
  | JobOutcome.throws msg stack =>
      ([ChanMsg.errDiag msg stack], { code := some 1, error := some msg })

/-- Owner-side closure state of one spawned handle.  `waiter` is the
single-slot `completionResolve`/`completionReject` pair, identified by the
id of the `join` call that registered it.  `timer` is the single-slot
`timeoutId`, holding the configured timeout together with the waiter id
whose `reject` the timer callback captured.  `errorListener` and
`completionListener` record whether `errorHandler` and `completionHandler`
are still attached.  `terminates` counts `worker.terminate()` calls and
`cleanups` counts executions of the `cleanup` closure (close completion
port, revoke worker URL). -/
structure HandleState where
  interrupted : Bool
  completed : Bool
  completionCode : Nat
  completionError : Option String
  waiter : Option Nat
  timer : Option (Nat × Nat)
  errorListener : Bool
  completionListener : Bool
  terminates : Nat
  cleanups : Nat
  deriving DecidableEq, Repr

/-- State of a handle immediately after `spawn` returns. -/
def initState : HandleState :=
  { interrupted := false
    completed := false
    completionCode := 0
    completionError := none
    waiter := none
    timer := none
    errorListener := true
    completionListener := true
    terminates := 0
    cleanups := 0 }

/-- One execution of the `cleanup` closure (counted, to express the
exactly-once teardown claims). -/
def cleanup (s : HandleState) : HandleState := { s with cleanups := s.cleanups + 1 }

/-- One `worker.terminate()` call (counted). -/
def terminate (s : HandleState) : HandleState := { s with terminates := s.terminates + 1 }

/-- Removal of both the error listener and the completion listener, as done
on every path that sets `completed`. -/
def detach (s : HandleState) : HandleState :=
  { s with errorListener := false, completionListener := false }

/-- How a join promise settles: `resolve(code)` or `reject(error message)`. -/
inductive SettleResult where
  | resolved (code : Nat)
  | rejected (message : String)
  deriving DecidableEq, Repr

/-- Whether a settlement settles the promise of the very `join` call being
executed (immediate, the early-return paths of `join`), or a previously
registered waiter reached through the stored callbacks (deferred). -/
inductive Source where
  | immediate
  | deferred
  deriving DecidableEq, Repr

/-- An observable promise settlement: which join call's promise, from which
path, with which result. -/
structure Settle where
  src : Source
  w : Nat
  result : SettleResult
  deriving DecidableEq, Repr

/-- Events that drive one handle: a `join(timeout)` call (identified by a
fresh waiter id), an `interrupt()` call, arrival of a completion message on
the completion port, firing of the pending join-timeout timer, and a
runtime `error` event from the worker. -/
inductive Event where
  | joinCall (timeout : Option Nat) (w : Nat)
  | interruptCall
  | completionMsg (data : CompletionData)
  | timerFire
  | workerError (message : String)
  deriving DecidableEq, Repr

/-- Message of the timeout error built by the join-timeout callback. -/
def timeoutMessage (t : Nat) : String :=
  "Thread join timed out after " ++ toString t ++ "ms"

/-- The settlement result `completionHandler` produces for a waiter from a
completion message: reject with a wrapped thread error when `data.error` is
truthy, otherwise resolve with the normalized code. -/
def completionSettle (d : CompletionData) : SettleResult :=
  if errTruthy d.error then
    SettleResult.rejected ("Thread error: " ++ d.error.getD "")
  else
    SettleResult.resolved (codeOrZero d.code)

/-- The result the early-return path of `join` produces from the stored
outcome of an already-completed handle. -/
def storedResult (s : HandleState) : SettleResult :=
  match s.completionError with
  | some e => SettleResult.rejected e
  | none => SettleResult.resolved s.completionCode

/-- One step of the handle: runs the source code path for the event and
returns the new state together with the settlements it performed.
Each branch mirrors the corresponding block of src/index.ts:
`joinCall` is the executor body of `join` (early return on `interrupted`,
early return on `completed`, otherwise register the waiter and, when a
timeout is given, arm the timer slot); `interruptCall` is `interrupt`
(unconditionally set both flags, detach listeners, terminate, cleanup —
it neither clears the timer nor settles the stored waiter);
`completionMsg` is `completionHandler` (guarded by attachment and
`!completed`; clears the timer, branches on truthiness of `data.error`,
runs cleanup, and settles the stored waiter if one is registered);
`timerFire` is the `setTimeout` callback (runs only if a timer is pending;
guarded by `!completed`; terminates, cleans up and rejects the captured
waiter with the timeout error); `workerError` is `errorHandler`. -/
def step (s : HandleState) : Event → HandleState × List Settle
  | Event.joinCall timeout w =>
      if s.interrupted then
        (s, [⟨Source.immediate, w, SettleResult.resolved 1⟩])
      else if s.completed then
        (s, [⟨Source.immediate, w, storedResult s⟩])
      else
        let s1 := { s with waiter := some w }
        (match timeout with
          | some t => { s1 with timer := some (t, w) }
          | none => s1, [])
  | Event.interruptCall =>
      (cleanup (terminate (detach { s with interrupted := true, completed := true })), [])
  | Event.completionMsg d =>
      if s.completionListener = true ∧ s.completed = false then
        let s1 := detach { s with completed := true, timer := none }
        if errTruthy d.error then
          (cleanup { s1 with completionError := some ("Thread error: " ++ d.error.getD "") },
            match s.waiter with
            | some w => [⟨Source.deferred, w, SettleResult.rejected ("Thread error: " ++ d.error.getD "")⟩]
            | none => [])
        else
          (cleanup { s1 with completionCode := codeOrZero d.code },
            match s.waiter with
            | some w => [⟨Source.deferred, w, SettleResult.resolved (codeOrZero d.code)⟩]
            | none => [])
      else (s, [])
  | Event.timerFire =>
      match s.timer with
      | none => (s, [])
      | some (t, w) =>
          if s.completed then ({ s with timer := none }, [])
          else
            let s1 := { s with completed := true, timer := none, completionError := some (timeoutMessage t) }
            (cleanup (terminate (detach s1)),
              [⟨Source.deferred, w, SettleResult.rejected (timeoutMessage t)⟩])
  | Event.workerError msg =>
      if s.errorListener = true ∧ s.completed = false then
        let s1 := { s with completed := true, timer := none, completionError := some ("Worker error: " ++ msg) }
        (cleanup (terminate (detach s1)),
          match s.waiter with
          | some w => [⟨Source.deferred, w, SettleResult.rejected ("Worker error: " ++ msg)⟩]
          | none => [])
      else (s, [])

/-- Run a sequence of events from a state. -/
def runTrace (s : HandleState) : List Event → HandleState
  | [] => s
  | e :: es => runTrace (step s e).1 es

/-- All settlements performed along a sequence of events, in order. -/
def traceSettles (s : HandleState) : List Event → List Settle
  | [] => []
  | e :: es => (step s e).2 ++ traceSettles (step s e).1 es

/-- The deferred settlements in a list: those that settle a previously
registered (pending) join promise rather than the promise of the join call
being executed. -/
def deferredOf (l : List Settle) : List Settle :=
  l.filter (fun x => decide (x.src = Source.deferred))

/-- No sequence of future events ever settles a join promise that is
already pending at `s`: every pending promise can only be settled through
a deferred settlement. -/
def neverDeferredSettles (s : HandleState) : Prop :=
  ∀ tr : List Event, deferredOf (traceSettles s tr) = []

/-- Every `join` call made at any point in the future of `s` settles its
own promise immediately with `resolve(1)` (and performs nothing else). -/
def futureJoinsResolveOne (s : HandleState) : Prop :=
  ∀ tr : List Event, ∀ timeout : Option Nat, ∀ w : Nat,
    (step (runTrace s tr) (Event.joinCall timeout w)).2 =
      [⟨Source.immediate, w, SettleResult.resolved 1⟩]

/-- Event dispatch on `messagePort1` for the pull mode: each pending
`rx.recv` call has registered a one-shot listener (identified by a number)
with `addEventListener`.  Dispatching one message iterates over the
snapshot of listeners taken at dispatch time; a listener fires only if it
has not been removed meanwhile, and a recv listener's body removes exactly
itself and then resolves its promise with the message.  The first argument
is the snapshot, the second the current listener list; the result is the
listener list after dispatch together with the settlements
(listener id, delivered payload). -/
def dispatchRecv : List Nat → List Nat → Nat → List Nat × List (Nat × Nat)
  | [], current, _ => (current, [])
  | h :: rest, current, m =>
      if h ∈ current then
        let r := dispatchRecv rest (current.erase h) m
        (r.1, (h, m) :: r.2)
      else
        dispatchRecv rest current m

/-- Delivery of one message to the port when `handlers` are the pending
recv listeners, in registration order. -/
def portDeliver (handlers : List Nat) (m : Nat) : List Nat × List (Nat × Nat) :=
  dispatchRecv handlers handlers m

/-- Sequential pull consumption: exactly one `recv` is pending at a time;
listener `h` consumes the first message, after which the next `recv` call
registers the fresh listener `h + 1` before the next message arrives.
Returns all settlements in order. -/
def recvLoop : List Nat → Nat → List (Nat × Nat)
  | [], _ => []
  | m :: ms, h => (portDeliver [h] m).2 ++ recvLoop ms (h + 1)

/-- The push-mode state of `messagePort1`: the single `onmessage` property
slot, holding the currently assigned callback (by id), if any. -/
structure PushPort where
  onmessage : Option Nat
  deriving DecidableEq, Repr

/-- The `rx.onMessage` method: assigns the wrapped callback to the port's
`onmessage` property, replacing whatever was there. -/
def onMessage (p : PushPort) (cb : Nat) : PushPort := { p with onmessage := some cb }

/-- Delivery of one message in push mode: the currently assigned
`onmessage` callback (if any) is invoked with the payload. -/
def pushDeliver (p : PushPort) (m : Nat) : List (Nat × Nat) :=
  match p.onmessage with
  | some cb => [(cb, m)]
  | none => []

/-- Id reserved for the initiating (main) context. -/
def mainThreadId : Nat := 0

/-- Result of `Thread.id()` in the initiating context. -/
def getThreadId : Nat := mainThreadId

/-- Ids handed out by `n` successive `spawn` calls when the module-level
`threadIdCounter` currently holds `c`: each spawn reads the counter and
post-increments it (`workerThreadId = threadIdCounter++`).  The counter is
initialized to 1 at module load. -/
def allocIds : Nat → Nat → List Nat
  | _, 0 => []
  | c, n + 1 => c :: allocIds (c + 1) n

/-- Once `completed` is set, no event resets it: every path that writes
`completed` writes `true`. -/
lemma completed_mono (s : HandleState) (e : Event) (h : s.completed = true) :
    ((step s e).1).completed = true := by
  cases e <;> simp only [step, cleanup, terminate, detach] <;>
    repeat' first | split | rfl | simp_all

/-- Once `interrupted` is set, no event resets it: only `interrupt` writes
it, and it writes `true`. -/
lemma interrupted_mono (s : HandleState) (e : Event) (h : s.interrupted = true) :
    ((step s e).1).interrupted = true := by
  cases e <;> simp only [step, cleanup, terminate, detach] <;>
    repeat' first | split | rfl | simp_all

/-- On a completed handle no event performs a deferred settlement: the
completion handler and the error handler are guarded by the completed
flag, the timer callback checks it, `interrupt` settles nothing, and the
early-return paths of `join` settle only their own (immediate) promise. -/
lemma no_deferred_step (s : HandleState) (e : Event) (h : s.completed = true) :
    deferredOf (step s e).2 = [] := by
  cases e <;> simp only [step, cleanup, terminate, detach] <;>
    repeat' first | split | rfl | simp_all [deferredOf]

/-- On a completed handle, no future sequence of events ever performs a
deferred settlement: a join promise pending at such a state is never
settled. -/
lemma neverDeferred_of_completed (s : HandleState) (h : s.completed = true) :
    neverDeferredSettles s := by
  intro tr
  induction tr generalizing s with
  | nil => rfl
  | cons e es ih =>
      have h1 := completed_mono s e h
      have h2 := no_deferred_step s e h
      simp only [traceSettles, deferredOf, List.filter_append] at *
      rw [h2, ih _ h1]
      rfl

/-- Interrupted states stay interrupted along any trace. -/
lemma runTrace_interrupted (s : HandleState) (h : s.interrupted = true) (tr : List Event) :
    (runTrace s tr).interrupted = true := by
  induction tr generalizing s with
  | nil => exact h
  | cons e es ih => exact ih _ (interrupted_mono s e h)

/-- On an interrupted handle every future `join` call takes the first
early-return path and resolves its own promise with 1. -/
lemma joinsResolveOne_of_interrupted (s : HandleState) (h : s.interrupted = true) :
    futureJoinsResolveOne s := by
  intro tr timeout w
  have hi := runTrace_interrupted s h tr
  simp [step, hi]

/-- The state `interrupt` leaves behind has both flags set. -/
lemma interrupt_flags (s : HandleState) :
    ((step s Event.interruptCall).1).interrupted = true ∧
    ((step s Event.interruptCall).1).completed = true := by
  simp [step, cleanup, terminate, detach]

/-- Delivery of one message to a single pending recv listener settles
exactly that listener with the message and leaves no listener pending. -/
lemma portDeliver_single (h m : Nat) : portDeliver [h] m = ([], [(h, m)]) := by
  simp [portDeliver, dispatchRecv, List.erase_cons_head]

/-- Unfolding of sequential pull consumption. -/
lemma recvLoop_cons (m : Nat) (ms : List Nat) (h : Nat) :
    recvLoop (m :: ms) h = (h, m) :: recvLoop ms (h + 1) := by
  simp [recvLoop, portDeliver_single]

/-- Every id handed out with the counter at `c` is at least `c`. -/
lemma allocIds_le (c n i : Nat) (h : i ∈ allocIds c n) : c ≤ i := by
  induction n generalizing c with
  | zero => simp [allocIds] at h
  | succ k ih =>
      simp only [allocIds, List.mem_cons] at h
      rcases h with rfl | h
      · exact Nat.le_refl i
      · exact Nat.le_of_succ_le (ih (c + 1) h)

/-- Successively allocated ids are pairwise strictly increasing in
allocation order. -/
lemma allocIds_pairwise (c n : Nat) : List.Pairwise (fun a b => a < b) (allocIds c n) := by
  induction n generalizing c with
  | zero => exact List.Pairwise.nil
  | succ k ih =>
      refine List.Pairwise.cons (fun i hi => ?_) (ih (c + 1))
      exact Nat.lt_of_succ_le (allocIds_le (c + 1) k i hi)

/-- C1 counterexample.  The claim says a `join` already pending when
`interrupt()` runs resolves with exit code 1.  In the source, `interrupt`
never invokes the stored `completionResolve`: starting from a fresh handle,
`join()` (waiter 1) registers as the pending waiter, `interrupt()` settles
nothing, and from the resulting state no sequence of future events ever
performs a deferred settlement — the pending join promise stays unsettled
forever, so it does not resolve with 1. -/
theorem C1_counterexample :
    (runTrace initState [Event.joinCall none 1]).waiter = some 1 ∧
    traceSettles initState [Event.joinCall none 1, Event.interruptCall] = [] ∧
    neverDeferredSettles (runTrace initState [Event.joinCall none 1, Event.interruptCall]) := by
  refine ⟨by decide, by decide, neverDeferred_of_completed _ (by decide)⟩

/-- C1 (amended): after `interrupt()` on any handle state, every `join`
call made at any later point resolves immediately with the sentinel exit
code 1 and never rejects; but a join already pending when `interrupt()`
ran is never settled at all — it neither resolves nor rejects, because
`interrupt` discards the stored waiter callbacks without invoking them and
every later completion/timeout/fault path is disabled by the completed
flag. -/
theorem C1_interrupted_joins (s : HandleState) :
    ((step s Event.interruptCall).1).interrupted = true ∧
    ((step s Event.interruptCall).1).completed = true ∧
    futureJoinsResolveOne ((step s Event.interruptCall).1) ∧
    neverDeferredSettles ((step s Event.interruptCall).1) := by
  obtain ⟨hi, hc⟩ := interrupt_flags s
  exact ⟨hi, hc, joinsResolveOne_of_interrupted _ hi, neverDeferred_of_completed _ hc⟩

/-- C2 counterexample.  The claim says that after the first teardown
trigger, every later trigger — including a later `interrupt()` — performs
no teardown.  In the source, `interrupt` calls `worker.terminate()` and
`cleanup()` unconditionally: after natural completion already ran the
teardown once, a subsequent `interrupt()` runs it a second time. -/
theorem C2_counterexample :
    (runTrace initState [Event.completionMsg ⟨some 0, none⟩]).completed = true ∧
    (runTrace initState [Event.completionMsg ⟨some 0, none⟩]).cleanups = 1 ∧
    (runTrace initState [Event.completionMsg ⟨some 0, none⟩, Event.interruptCall]).cleanups = 2 := by
  decide

/-- C2 (amended): among the guarded triggers (completion-port message,
join-timeout timer, worker error event), teardown runs at most once — the
first trigger on a still-running handle performs it, and on a handle whose
completed flag is already set each of them performs no teardown; but
`interrupt()` is unguarded and performs the teardown (terminate plus
cleanup) on every call, even when teardown already ran. -/
theorem C2_teardown_once (s r : HandleState) (d : CompletionData) (msg : String)
    (hc : s.completed = true) (hr : r.completed = false) (hrl : r.completionListener = true) :
    ((step s (Event.completionMsg d)).1.cleanups = s.cleanups ∧
     (step s Event.timerFire).1.cleanups = s.cleanups ∧
     (step s (Event.workerError msg)).1.cleanups = s.cleanups ∧
     (step s (Event.completionMsg d)).1.terminates = s.terminates ∧
     (step s Event.timerFire).1.terminates = s.terminates ∧
     (step s (Event.workerError msg)).1.terminates = s.terminates) ∧
    (step r (Event.completionMsg d)).1.cleanups = r.cleanups + 1 ∧
    (step s Event.interruptCall).1.cleanups = s.cleanups + 1 ∧
    (step s Event.interruptCall).1.terminates = s.terminates + 1 := by
  refine ⟨⟨?_, ?_, ?_, ?_, ?_, ?_⟩, ?_, ?_, ?_⟩ <;>
    simp only [step, cleanup, terminate, detach] <;>
    repeat' first | split | rfl | simp_all

/-- C2 witness: the amended statement at a handle that completed naturally
(teardown already ran once) and a fresh running handle. -/
theorem C2_teardown_once_witness :
    ((step (runTrace initState [Event.completionMsg ⟨some 0, none⟩]) (Event.completionMsg ⟨some 0, none⟩)).1.cleanups = (runTrace initState [Event.completionMsg ⟨some 0, none⟩]).cleanups ∧
     (step (runTrace initState [Event.completionMsg ⟨some 0, none⟩]) Event.timerFire).1.cleanups = (runTrace initState [Event.completionMsg ⟨some 0, none⟩]).cleanups ∧
     (step (runTrace initState [Event.completionMsg ⟨some 0, none⟩]) (Event.workerError "x")).1.cleanups = (runTrace initState [Event.completionMsg ⟨some 0, none⟩]).cleanups ∧
     (step (runTrace initState [Event.completionMsg ⟨some 0, none⟩]) (Event.completionMsg ⟨some 0, none⟩)).1.terminates = (runTrace initState [Event.completionMsg ⟨some 0, none⟩]).terminates ∧
     (step (runTrace initState [Event.completionMsg ⟨some 0, none⟩]) Event.timerFire).1.terminates = (runTrace initState [Event.completionMsg ⟨some 0, none⟩]).terminates ∧
     (step (runTrace initState [Event.completionMsg ⟨some 0, none⟩]) (Event.workerError "x")).1.terminates = (runTrace initState [Event.completionMsg ⟨some 0, none⟩]).terminates) ∧
    (step initState (Event.completionMsg ⟨some 0, none⟩)).1.cleanups = initState.cleanups + 1 ∧
    (step (runTrace initState [Event.completionMsg ⟨some 0, none⟩]) Event.interruptCall).1.cleanups = (runTrace initState [Event.completionMsg ⟨some 0, none⟩]).cleanups + 1 ∧
    (step (runTrace initState [Event.completionMsg ⟨some 0, none⟩]) Event.interruptCall).1.terminates = (runTrace initState [Event.completionMsg ⟨some 0, none⟩]).terminates + 1 :=
  C2_teardown_once (runTrace initState [Event.completionMsg ⟨some 0, none⟩]) initState
    ⟨some 0, none⟩ "x" (by decide) (by decide) (by decide)

/-- C3: on a still-running handle, `join(timeoutMs)` with a defined
timeout registers the waiter and arms the timer without settling anything;
if the timer fires before a completion signal, the worker is terminated,
the cleanup runs, and that join rejects with the timeout error naming the
configured timeout; if a completion message arrives first, the pending
timer is cancelled and that join settles according to the completion
outcome. -/
theorem C3_join_timeout (s : HandleState) (tv w : Nat) (d : CompletionData)
    (hi : s.interrupted = false) (hc : s.completed = false) (hl : s.completionListener = true) :
    (step s (Event.joinCall (some tv) w)).2 = [] ∧
    ((step s (Event.joinCall (some tv) w)).1).waiter = some w ∧
    ((step s (Event.joinCall (some tv) w)).1).timer = some (tv, w) ∧
    (step ((step s (Event.joinCall (some tv) w)).1) Event.timerFire).2 =
      [⟨Source.deferred, w, SettleResult.rejected (timeoutMessage tv)⟩] ∧
    (step ((step s (Event.joinCall (some tv) w)).1) Event.timerFire).1.terminates =
      s.terminates + 1 ∧
    (step ((step s (Event.joinCall (some tv) w)).1) Event.timerFire).1.cleanups =
      s.cleanups + 1 ∧
    (step ((step s (Event.joinCall (some tv) w)).1) (Event.completionMsg d)).1.timer = none ∧
    (step ((step s (Event.joinCall (some tv) w)).1) (Event.completionMsg d)).2 =
      [⟨Source.deferred, w, completionSettle d⟩] ∧
    (∃ a b : String, timeoutMessage tv = a ++ toString tv ++ b) := by
  refine ⟨?_, ?_, ?_, ?_, ?_, ?_, ?_, ?_, "Thread join timed out after ", "ms", rfl⟩ <;>
    simp only [step, cleanup, terminate, detach, completionSettle] <;>
    repeat' first | split | rfl | simp_all

/-- C3 witness: the statement at a fresh handle, timeout 5, waiter 2, and
a successful completion payload. -/
theorem C3_join_timeout_witness :
    (step initState (Event.joinCall (some 5) 2)).2 = [] ∧
    ((step initState (Event.joinCall (some 5) 2)).1).waiter = some 2 ∧
    ((step initState (Event.joinCall (some 5) 2)).1).timer = some (5, 2) ∧
    (step ((step initState (Event.joinCall (some 5) 2)).1) Event.timerFire).2 =
      [⟨Source.deferred, 2, SettleResult.rejected (timeoutMessage 5)⟩] ∧
    (step ((step initState (Event.joinCall (some 5) 2)).1) Event.timerFire).1.terminates =
      initState.terminates + 1 ∧
    (step ((step initState (Event.joinCall (some 5) 2)).1) Event.timerFire).1.cleanups =
      initState.cleanups + 1 ∧
    (step ((step initState (Event.joinCall (some 5) 2)).1) (Event.completionMsg ⟨some 0, none⟩)).1.timer = none ∧
    (step ((step initState (Event.joinCall (some 5) 2)).1) (Event.completionMsg ⟨some 0, none⟩)).2 =
      [⟨Source.deferred, 2, completionSettle ⟨some 0, none⟩⟩] ∧
    (∃ a b : String, timeoutMessage 5 = a ++ toString 5 ++ b) :=
  C3_join_timeout initState 5 2 ⟨some 0, none⟩ rfl rfl rfl

/-- C4 counterexample.  The claim says each message is delivered to
exactly one `recv()` call, in particular that with two `recv()` calls
pending a single arriving message resolves only one of them.  In the
source each pending `recv` is a separate one-shot `addEventListener`
listener that removes only itself, so dispatching one message fires both:
with recv listeners 1 and 2 pending, the single message 5 settles both,
producing two deliveries of the same message. -/
theorem C4_counterexample :
    portDeliver [1, 2] 5 = ([], [(1, 5), (2, 5)]) ∧
    (portDeliver [1, 2] 5).2.length = 2 := by
  decide

/-- C4 (amended): pull-mode consumption is in send order and exactly-once
when `recv()` calls are sequential (at most one pending at a time): the
settlements carry exactly the sent messages in order, each going to the
successive, pairwise-distinct recv listeners.  When two `recv()` calls are
pending concurrently, however, a single arriving message resolves both of
them with the same payload (duplicate delivery). -/
theorem C4_sequential_recv (msgs : List Nat) (h0 : Nat) :
    (recvLoop msgs h0).map Prod.snd = msgs ∧
    (recvLoop msgs h0).map Prod.fst = List.range' h0 msgs.length := by
  induction msgs generalizing h0 with
  | nil => exact ⟨rfl, rfl⟩
  | cons m ms ih =>
      obtain ⟨h1, h2⟩ := ih (h0 + 1)
      rw [recvLoop_cons]
      constructor
      · simp [h1]
      · simp [h2, List.range'_succ]

/-- C5 counterexample.  The claim says that for every job that throws,
`join()` fails.  The completion handler tests `data.error` for JavaScript
truthiness, so a thrown error whose message is the empty string is routed
to the success branch: a pending join resolves with exit code 1 instead of
rejecting. -/
theorem C5_counterexample :
    traceSettles initState
      [Event.joinCall none 7,
       Event.completionMsg (workerRun (JobOutcome.throws "" "stk")).2] =
      [⟨Source.deferred, 7, SettleResult.resolved 1⟩] := by
  decide

/-- C5 (amended): for every job that throws an error with a nonempty
message, a pending `join` rejects with an error whose message is
`Thread error: ` followed by the thrown message (hence containing the
thrown message), and the same error is also posted on the Message Channel
as the diagnostic `{ error, stack }` object, separately from the
completion signal.  (When the thrown message is the empty string the
truthiness check misroutes the completion and join resolves with code 1
instead; the diagnostic is still posted.) -/
theorem C5_job_throw (s : HandleState) (w : Nat) (msg stack : String)
    (hmsg : msg ≠ "") (hc : s.completed = false) (hl : s.completionListener = true)
    (hw : s.waiter = some w) :
    (workerRun (JobOutcome.throws msg stack)).1 = [ChanMsg.errDiag msg stack] ∧
    (step s (Event.completionMsg (workerRun (JobOutcome.throws msg stack)).2)).2 =
      [⟨Source.deferred, w, SettleResult.rejected ("Thread error: " ++ msg)⟩] ∧
    (∃ a b : String, "Thread error: " ++ msg = a ++ msg ++ b) := by
  refine ⟨rfl, ?_, "Thread error: ", "", by simp⟩
  simp [step, workerRun, errTruthy, hmsg, hc, hl, hw]

/-- C5 witness: the amended statement for a fresh handle with pending
waiter 7 and a job that throws the message boom. -/
theorem C5_job_throw_witness :
    (workerRun (JobOutcome.throws "boom" "stk")).1 = [ChanMsg.errDiag "boom" "stk"] ∧
    (step (runTrace initState [Event.joinCall none 7])
        (Event.completionMsg (workerRun (JobOutcome.throws "boom" "stk")).2)).2 =
      [⟨Source.deferred, 7, SettleResult.rejected ("Thread error: " ++ "boom")⟩] ∧
    (∃ a b : String, "Thread error: " ++ "boom" = a ++ "boom" ++ b) :=
  C5_job_throw (runTrace initState [Event.joinCall none 7]) 7 "boom" "stk"
    (by decide) (by decide) (by decide) (by decide)

/-- C6: starting from any counter value the module could hold (the counter
is initialized to 1 and only ever post-incremented, so it is always at
least 1), the ids returned by `n` successive spawns are pairwise distinct
and strictly increasing in spawn order, and none of them equals the
reserved main-context id 0 — where `Thread.id()` in the initiating context
returns 0. -/
theorem C6_spawn_ids (c n : Nat) (h : 1 ≤ c) :
    List.Pairwise (fun a b => a < b) (allocIds c n) ∧
    (∀ i ∈ allocIds c n, i ≠ mainThreadId) ∧
    getThreadId = 0 := by
  refine ⟨allocIds_pairwise c n, fun i hi => ?_, rfl⟩
  have h1 : 1 ≤ i := Nat.le_trans h (allocIds_le c n i hi)
  simp only [mainThreadId]
  omega

/-- C6 witness: three spawns from the initial counter value 1. -/
theorem C6_spawn_ids_witness :
    List.Pairwise (fun a b => a < b) (allocIds 1 3) ∧
    (∀ i ∈ allocIds 1 3, i ≠ mainThreadId) ∧
    getThreadId = 0 :=
  C6_spawn_ids 1 3 (by decide)

/-- C7: on a handle whose completion cell is already set (completed, not
interrupted), a `join` call settles its own promise immediately from the
stored outcome — rejecting the stored error if one is recorded, otherwise
resolving the stored code — and leaves the state completely unchanged (in
particular no further `worker.terminate()` and no further cleanup); a
second `join` yields the same stored outcome again. -/
theorem C7_join_after_terminal (s : HandleState) (t1 t2 : Option Nat) (w1 w2 : Nat)
    (hc : s.completed = true) (hi : s.interrupted = false) :
    step s (Event.joinCall t1 w1) = (s, [⟨Source.immediate, w1, storedResult s⟩]) ∧
    traceSettles s [Event.joinCall t1 w1, Event.joinCall t2 w2] =
      [⟨Source.immediate, w1, storedResult s⟩, ⟨Source.immediate, w2, storedResult s⟩] := by
  constructor
  · simp [step, hc, hi]
  · simp [traceSettles, step, hc, hi]

/-- C7 witness: two joins on a handle that completed with code 0. -/
theorem C7_join_after_terminal_witness :
    step (runTrace initState [Event.completionMsg ⟨some 0, none⟩]) (Event.joinCall none 3) =
      (runTrace initState [Event.completionMsg ⟨some 0, none⟩],
        [⟨Source.immediate, 3, storedResult (runTrace initState [Event.completionMsg ⟨some 0, none⟩])⟩]) ∧
    traceSettles (runTrace initState [Event.completionMsg ⟨some 0, none⟩])
        [Event.joinCall none 3, Event.joinCall none 4] =
      [⟨Source.immediate, 3, storedResult (runTrace initState [Event.completionMsg ⟨some 0, none⟩])⟩,
       ⟨Source.immediate, 4, storedResult (runTrace initState [Event.completionMsg ⟨some 0, none⟩])⟩] :=
  C7_join_after_terminal (runTrace initState [Event.completionMsg ⟨some 0, none⟩])
    none none 3 4 (by decide) (by decide)

/-- C8: on a still-running handle, a second concurrent `join` overwrites
the single-slot waiter callbacks: after two registrations the stored
waiter is the second one, neither registration settled anything, and the
arriving completion message notifies only the most recently registered
waiter. -/
theorem C8_single_slot_waiter (s : HandleState) (t1 t2 : Option Nat) (w1 w2 : Nat)
    (d : CompletionData)
    (hi : s.interrupted = false) (hc : s.completed = false) (hl : s.completionListener = true) :
    (runTrace s [Event.joinCall t1 w1, Event.joinCall t2 w2]).waiter = some w2 ∧
    traceSettles s [Event.joinCall t1 w1, Event.joinCall t2 w2] = [] ∧
    (step (runTrace s [Event.joinCall t1 w1, Event.joinCall t2 w2]) (Event.completionMsg d)).2 =
      [⟨Source.deferred, w2, completionSettle d⟩] := by
  refine ⟨?_, ?_, ?_⟩ <;>
    cases t1 <;> cases t2 <;>
    simp only [runTrace, traceSettles, step, cleanup, terminate, detach, completionSettle] <;>
    repeat' first | split | rfl | simp_all

/-- C8 witness: two joins (waiters 1 and 2) on a fresh handle, then a
successful completion. -/
theorem C8_single_slot_waiter_witness :
    (runTrace initState [Event.joinCall none 1, Event.joinCall none 2]).waiter = some 2 ∧
    traceSettles initState [Event.joinCall none 1, Event.joinCall none 2] = [] ∧
    (step (runTrace initState [Event.joinCall none 1, Event.joinCall none 2])
        (Event.completionMsg ⟨some 0, none⟩)).2 =
      [⟨Source.deferred, 2, completionSettle ⟨some 0, none⟩⟩] :=
  C8_single_slot_waiter initState none none 1 2 ⟨some 0, none⟩ rfl rfl rfl

/-- C9: when the job returns (or its promise resolves) without throwing,
the worker harness posts the completion payload with code 0 and no error —
the job is given no way to choose a different success code — and the
completion handler resolves a pending join with exactly 0; the handler's
normalization maps a missing or zero (falsy) code to 0. -/
theorem C9_success_exit_zero (s : HandleState) (w : Nat)
    (hc : s.completed = false) (hl : s.completionListener = true) (hw : s.waiter = some w) :
    (workerRun JobOutcome.ok).2 = { code := some 0, error := none } ∧
    (step s (Event.completionMsg (workerRun JobOutcome.ok).2)).2 =
      [⟨Source.deferred, w, SettleResult.resolved 0⟩] ∧
    codeOrZero none = 0 ∧ codeOrZero (some 0) = 0 := by
  refine ⟨rfl, ?_, rfl, rfl⟩
  simp [step, workerRun, errTruthy, codeOrZero, hc, hl, hw]

/-- C9 witness: a successful job completing a fresh handle with pending
waiter 7. -/
theorem C9_success_exit_zero_witness :
    (workerRun JobOutcome.ok).2 = { code := some 0, error := none } ∧
    (step (runTrace initState [Event.joinCall none 7])
        (Event.completionMsg (workerRun JobOutcome.ok).2)).2 =
      [⟨Source.deferred, 7, SettleResult.resolved 0⟩] ∧
    codeOrZero none = 0 ∧ codeOrZero (some 0) = 0 :=
  C9_success_exit_zero (runTrace initState [Event.joinCall none 7]) 7
    (by decide) (by decide) (by decide)

/-- C10: calling `rx.onMessage` a second time assigns the port's single
`onmessage` property again, replacing the previous callback: afterwards
the slot holds the second callback, an arriving message is delivered to it
alone, and the first callback receives nothing. -/
theorem C10_onmessage_replaced (p : PushPort) (cb1 cb2 m : Nat) (h : cb1 ≠ cb2) :
    (onMessage (onMessage p cb1) cb2).onmessage = some cb2 ∧
    pushDeliver (onMessage (onMessage p cb1) cb2) m = [(cb2, m)] ∧
    (∀ x ∈ pushDeliver (onMessage (onMessage p cb1) cb2) m, x.1 ≠ cb1) := by
  refine ⟨rfl, rfl, fun x hx => ?_⟩
  simp only [pushDeliver, onMessage, List.mem_singleton] at hx
  subst hx
  exact fun hcon => h (hcon.symm)

/-- C10 witness: callbacks 1 then 2, message 9. -/
theorem C10_onmessage_replaced_witness :
    (onMessage (onMessage ⟨none⟩ 1) 2).onmessage = some 2 ∧
    pushDeliver (onMessage (onMessage ⟨none⟩ 1) 2) 9 = [(2, 9)] ∧
    (∀ x ∈ pushDeliver (onMessage (onMessage ⟨none⟩ 1) 2) 9, x.1 ≠ 1) :=
  C10_onmessage_replaced ⟨none⟩ 1 2 9 (by decide)

end Trx
